import Mathlib

/-!
Verification of the AI-Tutor backend authentication / caching / throttling
subsystem (src/backend/app.py, src/backend/models.py, src/backend/schemas.py).

The Python source is shallowly embedded: the SQLAlchemy user table becomes a
list of `UserRecord`s, bcrypt hashes and JWTs become symbolic inductive values
carrying exactly the information the code inspects (the plaintext/salt behind a
well-formed bcrypt hash, the payload and signing key behind a signed JWT),
wall-clock instants are `Nat` seconds, and every fallible operation returns
`Except`.  FastAPI's `HTTPException` becomes the `HttpError` structure
(status code plus detail string).
-/

namespace AITutor

/-! ### Password hasher (passlib CryptContext with the bcrypt scheme)

`pwd_context.hash` embeds a fresh random salt, so the hash of a plaintext is a
well-formed bcrypt string determined by (plaintext, salt).  `pwd_context.verify`
first identifies the hash scheme; on a string that is not a recognizable bcrypt
hash passlib raises `UnknownHashError` (it does not return `False`), which the
embedding records as an `Except.error`. -/

inductive HashString where
  | bcrypt (plaintext : String) (salt : Nat)
  | malformed (raw : String)
deriving DecidableEq

/-- Embeds `get_password_hash` (app.py line 78): `pwd_context.hash(password)`,
with the per-call random salt made an explicit argument. -/
def get_password_hash (password : String) (salt : Nat) : HashString :=
  HashString.bcrypt password salt

/-- Embeds `verify_password` (app.py line 119): `pwd_context.verify` returns a
boolean for a recognizable bcrypt hash and raises `UnknownHashError` on a
malformed hash string. -/
def verify_password (plain_password : String) (hashed_password : HashString) :
    Except String Bool :=
  match hashed_password with
  | HashString.bcrypt p _ => Except.ok (plain_password == p)
  | HashString.malformed _ => Except.error "UnknownHashError"

/-! ### Data model (models.py `User` table, plus the google_id / picture
columns added by the alembic migration `add_google_auth`). -/

structure UserRecord where
  id : Nat
  username : String
  email : String
  full_name : Option String
  hashed_password : Option HashString
  disabled : Bool
  google_id : Option String
  picture : Option String
deriving DecidableEq

/-! ### Token service (python-jose JWT, HS256)

A token is either a payload signed with some key, or a string that does not
parse/verify as a JWT at all.  `jwt.decode` checks the signature first
(`JWTError` on mismatch or garbage) and then the registered `exp` claim
(`ExpiredSignatureError`, a distinct error kind, once the instant has passed).
Instants are `Nat` seconds since the epoch. -/

def SECRET_KEY : String := "your-secret-key-here"

def ALGORITHM : String := "HS256"

def ACCESS_TOKEN_EXPIRE_MINUTES : Nat := 60 * 24

structure TokenPayload where
  sub : String
  exp : Nat
deriving DecidableEq

inductive Token where
  | signed (payload : TokenPayload) (key : String)
  | malformed (raw : String)
deriving DecidableEq

inductive JwtError where
  | InvalidToken
  | ExpiredToken
deriving DecidableEq

/-- Embeds `create_access_token` (app.py lines 130-138): expiry is
now + expires_delta when given, else now + 15 minutes; the payload is signed
with the server `SECRET_KEY`. -/
def create_access_token (sub : String) (now : Nat) (expires_delta : Option Nat) :
    Token :=
  let expire : Nat :=
    match expires_delta with
    | some d => now + d
    | none => now + 15 * 60
  Token.signed ⟨sub, expire⟩ SECRET_KEY

/-- Embeds `jose.jwt.decode(token, key, algorithms=[ALGORITHM])` evaluated at
instant `now`: signature failure or an unparsable token raises `JWTError`
(`InvalidToken`); a token whose `exp` claim is strictly in the past raises
`ExpiredSignatureError` (`ExpiredToken`); otherwise the payload is returned. -/
def jwt_decode (token : Token) (key : String) (now : Nat) :
    Except JwtError TokenPayload :=
  match token with
  | Token.malformed _ => Except.error JwtError.InvalidToken
  | Token.signed p k =>
    if k != key then Except.error JwtError.InvalidToken
    else if p.exp < now then Except.error JwtError.ExpiredToken
    else Except.ok p

/-! ### HTTP-level errors -/

structure HttpError where
  status : Nat
  detail : String
deriving DecidableEq

def credentials_exception : HttpError :=
  ⟨401, "Could not validate credentials"⟩

/-! ### Request authentication dependencies -/

/-- Embeds `get_user` (app.py line 116): first record matching the username. -/
def get_user (db : List UserRecord) (username : String) : Option UserRecord :=
  db.find? (fun u => u.username == username)

/-- Embeds `get_current_user` (app.py lines 140-160): decode the bearer token
(any `JWTError`, expired included, becomes the 401 `credentials_exception`),
then resolve the embedded subject to a store record (401 when absent).  The
`disabled` flag is not inspected here. -/
def get_current_user (db : List UserRecord) (token : Token) (now : Nat) :
    Except HttpError UserRecord :=
  match jwt_decode token SECRET_KEY now with
  | Except.error _ => Except.error credentials_exception
  | Except.ok payload =>
    match get_user db payload.sub with
    | none => Except.error credentials_exception
    | some user => Except.ok user

/-- Embeds `get_current_active_user` (app.py lines 162-165): rejects a resolved
user whose `disabled` flag is set.  No endpoint of app.py depends on this
function. -/
def get_current_active_user (db : List UserRecord) (token : Token) (now : Nat) :
    Except HttpError UserRecord :=
  match get_current_user db token now with
  | Except.error e => Except.error e
  | Except.ok current_user =>
    if current_user.disabled then Except.error ⟨400, "Inactive user"⟩
    else Except.ok current_user

/-! ### Signup (app.py lines 167-204) -/

structure UserCreate where
  username : String
  email : String
  full_name : Option String
  password : String
deriving DecidableEq

/-- Embeds the `/signup` handler (app.py lines 167-204).  The pair returned is
(response, resulting store): an error response leaves the store unchanged.
`salt` is the random salt bcrypt draws for the new hash and `nextId` the
primary key the database assigns. -/
def signup (user : UserCreate) (salt : Nat) (nextId : Nat)
    (db : List UserRecord) : Except HttpError UserRecord × List UserRecord :=
  if db.any (fun u => u.username == user.username) then
    (Except.error ⟨400, "Username already registered"⟩, db)
  else if db.any (fun u => u.email == user.email) then
    (Except.error ⟨400, "Email already registered"⟩, db)
  else
    let db_user : UserRecord :=
      { id := nextId
        username := user.username
        email := user.email
        full_name := user.full_name
        hashed_password := some (get_password_hash user.password salt)
        disabled := false
        google_id := none
        picture := none }
    (Except.ok db_user, db ++ [db_user])

/-! ### Response cache (cachetools `TTLCache(maxsize=100, ttl=300)`, app.py
line 72)

An entry is (key, value, insertion instant).  The list is kept in insertion
order: `__setitem__` first expires outdated entries, evicts the oldest live
entries while the store is full, then appends the new entry with a fresh
expiry; lookups treat an entry as absent once `now` has reached
insertion + ttl and do not refresh its expiry. -/

structure TutorResult where
  response : String
  user : String
deriving DecidableEq

abbrev Cache := List (String × TutorResult × Nat)

def CACHE_MAXSIZE : Nat := 100

def CACHE_TTL : Nat := 300

/-- Embeds `cache_key in cache` / `cache[cache_key]` on a `TTLCache`: the
stored value while `now < insertion + ttl`, absent afterwards. -/
def cache_get (c : Cache) (key : String) (now : Nat) : Option TutorResult :=
  match c.find? (fun e => e.1 == key) with
  | some (_, v, t0) => if now < t0 + CACHE_TTL then some v else none
  | none => none

/-- Embeds `cache[cache_key] = result` on a `TTLCache`: drop the old entry for
the key and every expired entry, evict oldest-first down to capacity, append
the new entry stamped `now`. -/
def cache_set (c : Cache) (key : String) (v : TutorResult) (now : Nat) :
    Cache :=
  let live := c.filter (fun e => e.1 != key && decide (now < e.2.2 + CACHE_TTL))
  let bounded :=
    if CACHE_MAXSIZE ≤ live.length then
      live.drop (live.length + 1 - CACHE_MAXSIZE)
    else live
  bounded ++ [(key, v, now)]

/-! ### The /tutor endpoint (app.py lines 228-273) -/

def cacheKey (topic username : String) : String :=
  "tutor_" ++ topic ++ "_" ++ username

/-- Embeds the f-string prompt built at app.py lines 240-264 around the
requested topic. -/
def tutorPrompt (topic : String) : String :=
  "\n    You are an educational tutor. \n    The topic is: " ++ topic ++
  ".\n    \n    Tasks:\n    1. Start with a friendly greeting and brief introduction to the topic 🎯\n" ++
  "    2. Structure your response with clear sections using emojis:\n       📚 Main Concepts\n" ++
  "       💡 Key Points\n       ⚡ Examples\n       🎯 Practice Tips\n       ❓ Common Questions\n" ++
  "    3. Use emojis to highlight important points and make the content engaging\n" ++
  "    4. Include code examples where relevant\n    5. End with an encouraging message and next steps\n" ++
  "    \n    Format Guidelines:\n    - Use bullet points (•) instead of asterisks\n" ++
  "    - Keep paragraphs short and readable\n    - Use proper spacing between sections\n" ++
  "    - Include relevant emojis for visual appeal\n    - Make code examples clear and well-commented\n" ++
  "    \n    Make the response engaging, easy to understand, and well-structured.\n    "

/-- Embeds the body of `educational_tutor` (app.py lines 228-273), after the
rate-limit gate.  `gen` is the external generative call
(`model.generate_content`), whose failure the handler converts to a 500.  The
returned triple is (response value, cache afterwards, whether the external
call was invoked). -/
def educational_tutor (gen : String → Except String String)
    (db : List UserRecord) (token : Token) (topic : String) (now : Nat)
    (c : Cache) : Except HttpError (TutorResult × Cache × Bool) :=
  match get_current_user db token now with
  | Except.error e => Except.error e
  | Except.ok current_user =>
    let cache_key := cacheKey topic current_user.username
    match cache_get c cache_key now with
    | some cached => Except.ok (cached, c, false)
    | none =>
      match gen (tutorPrompt topic) with
      | Except.error e => Except.error ⟨500, e⟩
      | Except.ok text =>
        let result : TutorResult := ⟨text, current_user.username⟩
        Except.ok (result, cache_set c cache_key result now, true)

/-! ### Rate limiter (slowapi `Limiter`, fixed-window strategy of the limits
library, keyed per client address by `get_remote_address`)

`MemoryStorage.incr` creates the counter with an expiry of window seconds at
its first hit; further hits within the window increment it without extending
the expiry; once the expiry instant is reached the counter resets.  A hit is
allowed when the incremented count stays within the declared limit. -/

structure WindowState where
  start : Nat
  count : Nat
deriving DecidableEq

/-- One rate-limiter hit at instant `now` against a `limit`-per-`window`
policy: returns whether the request is allowed together with the new window
state. -/
def limiter_hit (s : Option WindowState) (now limit window : Nat) :
    Bool × WindowState :=
  match s with
  | none => (decide (1 ≤ limit), ⟨now, 1⟩)
  | some w =>
    if w.start + window ≤ now then (decide (1 ≤ limit), ⟨now, 1⟩)
    else (decide (w.count + 1 ≤ limit), ⟨w.start, w.count + 1⟩)

/-- Runs a sequence of hits (one per request instant, same client address and
endpoint) through the limiter, collecting each allow/reject verdict. -/
def run_limiter (s : Option WindowState) (times : List Nat)
    (limit window : Nat) : List Bool :=
  match times with
  | [] => []
  | t :: ts =>
    let r := limiter_hit s t limit window
    r.1 :: run_limiter (some r.2) ts limit window

/-- The `@limiter.limit("5/minute")` decorator on `/tutor` (app.py lines
229 and 276), as a (max_requests, window seconds) pair. -/
def tutor_rate_limit : Nat × Nat := (5, 60)

/-- The `@limiter.limit("3/minute")` decorator on `/upload` (app.py line
286), as a (max_requests, window seconds) pair. -/
def upload_rate_limit : Nat × Nat := (3, 60)

/-! ### Federated login: the /auth/google handler (app.py lines 331-409) -/

structure GoogleProfile where
  sub : Option String
  email : Option String
  name : Option String
  picture : Option String
deriving DecidableEq

structure ProviderResponse where
  status_code : Nat
  body : GoogleProfile
deriving DecidableEq

structure PublicUser where
  username : String
  email : String
  full_name : Option String
deriving DecidableEq

/-- The exceptions that can escape the body of the `try:` block in
`google_auth`: an `HTTPException` raised by the handler itself, a `KeyError`
from a missing userinfo field, or an `AttributeError` from referencing an
attribute the ORM class does not declare. -/
inductive GoogleAuthException where
  | httpError (e : HttpError)
  | keyError (key : String)
  | attributeError (attr : String)
deriving DecidableEq

/-- Embeds the body of the `try:` block of `google_auth` (app.py lines
336-402): provider status check (an `HTTPException(401)` is raised on a
non-success status), then profile extraction (`KeyError` when `sub` or
`email` is missing from the userinfo body).  The very next statement, the
lookup `models.User.google_id` at app.py line 356, raises `AttributeError`:
the `User` class in models.py declares no `google_id` (or `picture`)
attribute — the alembic migration added those columns to the database table
only, never to the ORM class, and the handler works through the ORM.  The
account-resolution, linking and creation code at lines 358-386 is therefore
unreachable, so every request that passes the status and field checks ends
here; the `Except.ok` branch of the result type is never produced. -/
def googleAuthInner (resp : ProviderResponse) (db : List UserRecord)
    (nextId randSuffix now : Nat) :
    Except GoogleAuthException (List UserRecord × Token × PublicUser) :=
  if resp.status_code ≠ 200 then
    Except.error (GoogleAuthException.httpError ⟨401, "Invalid Google token"⟩)
  else
    match resp.body.sub with
    | none => Except.error (GoogleAuthException.keyError "sub")
    | some _ =>
      match resp.body.email with
      | none => Except.error (GoogleAuthException.keyError "email")
      | some _ =>
        Except.error (GoogleAuthException.attributeError "google_id")

/-- Embeds the whole `google_auth` handler (app.py lines 331-409): the
`except Exception` at line 404 catches every exception raised in the body —
the handler's own `HTTPException(401)` included — and replaces it with a 500
"Authentication failed". -/
def google_auth (resp : ProviderResponse) (db : List UserRecord)
    (nextId randSuffix now : Nat) :
    Except HttpError (List UserRecord × Token × PublicUser) :=
  match googleAuthInner resp db nextId randSuffix now with
  | Except.ok r => Except.ok r
  | Except.error _ => Except.error ⟨500, "Authentication failed"⟩


/-! ### Claims -/

/-- Appending to a common prefix is injective on strings. -/
theorem string_append_cancel_left (s a b : String) (h : s ++ a = s ++ b) :
    a = b := by
  have h2 : (s ++ a).data = (s ++ b).data := by rw [h]
  simp only [String.data_append] at h2
  exact String.ext (List.append_cancel_left h2)

/-- C1: for every provider response with a non-success status, `/auth/google`
answers 500 "Authentication failed" and never the 401 "Invalid Google token"
the handler tries to raise: the blanket `except Exception` catches the
handler-raised `HTTPException(401)` and replaces it. -/
theorem c1_provider_rejection_surfaces_500 (resp : ProviderResponse)
    (db : List UserRecord) (nextId rand now : Nat)
    (h : resp.status_code ≠ 200) :
    google_auth resp db nextId rand now
      = Except.error ⟨500, "Authentication failed"⟩
    ∧ google_auth resp db nextId rand now
      ≠ Except.error ⟨401, "Invalid Google token"⟩ := by
  have h1 : google_auth resp db nextId rand now
      = Except.error ⟨500, "Authentication failed"⟩ := by
    simp [google_auth, googleAuthInner, if_pos h]
  refine ⟨h1, ?_⟩
  rw [h1]
  intro hcontra
  simp at hcontra

/-- Witness for C1 at a concrete provider response with status 400. -/
theorem c1_witness :
    google_auth ⟨400, ⟨none, none, none, none⟩⟩ [] 1 1234 0
      = Except.error ⟨500, "Authentication failed"⟩
    ∧ google_auth ⟨400, ⟨none, none, none, none⟩⟩ [] 1 1234 0
      ≠ Except.error ⟨401, "Invalid Google token"⟩ :=
  c1_provider_rejection_surfaces_500 ⟨400, ⟨none, none, none, none⟩⟩ [] 1 1234 0
    (by decide)

/-- C2: a record whose disabled flag is set, presenting a valid bearer token,
is granted access to the protected `/tutor` endpoint — `educational_tutor`
authenticates through `get_current_user`, which never inspects `disabled`.
The rejection the claim describes lives only in `get_current_active_user`
(second conjunct), a dependency no endpoint uses. -/
theorem c2_disabled_user_granted_access :
    educational_tutor (fun _ => Except.ok "generated")
      [⟨1, "dave", "dave@x.com", none, some (HashString.bcrypt "pw" 0), true, none, none⟩]
      (create_access_token "dave" 0 (some 3600)) "algebra" 10 []
      = Except.ok (⟨"generated", "dave"⟩,
          [(cacheKey "algebra" "dave", ⟨"generated", "dave"⟩, 10)], true)
    ∧ get_current_active_user
      [⟨1, "dave", "dave@x.com", none, some (HashString.bcrypt "pw" 0), true, none, none⟩]
      (create_access_token "dave" 0 (some 3600)) 10
      = Except.error ⟨400, "Inactive user"⟩ :=
  ⟨rfl, rfl⟩

/-- C3: a token issued by `create_access_token(subject, ttl)` validates (under
the server key) to exactly that subject at every instant strictly before
issuance + ttl, fails with `ExpiredToken` at every instant strictly after it,
and fails with `InvalidToken` on a malformed token or on a signature made with
a different key.  `jwt_decode` being a function of (token, instant) is the
claimed determinism. -/
theorem c3_token_validation (sub raw k : String) (p : TokenPayload)
    (ttl now t : Nat) :
    (t < now + ttl →
      jwt_decode (create_access_token sub now (some ttl)) SECRET_KEY t
        = Except.ok ⟨sub, now + ttl⟩)
    ∧ (now + ttl < t →
      jwt_decode (create_access_token sub now (some ttl)) SECRET_KEY t
        = Except.error JwtError.ExpiredToken)
    ∧ jwt_decode (Token.malformed raw) SECRET_KEY t
        = Except.error JwtError.InvalidToken
    ∧ (k ≠ SECRET_KEY →
      jwt_decode (Token.signed p k) SECRET_KEY t
        = Except.error JwtError.InvalidToken) := by
  refine ⟨?_, ?_, rfl, ?_⟩
  · intro h
    simp only [create_access_token, jwt_decode, bne_self_eq_false, Bool.false_eq_true,
      if_false]
    rw [if_neg (by omega)]
  · intro h
    simp only [create_access_token, jwt_decode, bne_self_eq_false, Bool.false_eq_true,
      if_false]
    rw [if_pos (by omega)]
  · intro h
    simp only [jwt_decode]
    rw [if_pos (by simp [bne_iff_ne, h])]

/-- Witness for C3 at a concrete subject, ttl 60 issued at instant 100. -/
theorem c3_witness :
    jwt_decode (create_access_token "alice" 100 (some 60)) SECRET_KEY 150
      = Except.ok ⟨"alice", 160⟩
    ∧ jwt_decode (create_access_token "alice" 100 (some 60)) SECRET_KEY 161
      = Except.error JwtError.ExpiredToken
    ∧ jwt_decode (Token.malformed "not-a-jwt") SECRET_KEY 150
      = Except.error JwtError.InvalidToken
    ∧ jwt_decode (Token.signed ⟨"alice", 160⟩ "other-key") SECRET_KEY 150
      = Except.error JwtError.InvalidToken :=
  ⟨(c3_token_validation "alice" "not-a-jwt" "other-key" ⟨"alice", 160⟩ 60 100 150).1
      (by omega),
   (c3_token_validation "alice" "not-a-jwt" "other-key" ⟨"alice", 160⟩ 60 100 161).2.1
      (by omega),
   (c3_token_validation "alice" "not-a-jwt" "other-key" ⟨"alice", 160⟩ 60 100 150).2.2.1,
   (c3_token_validation "alice" "not-a-jwt" "other-key" ⟨"alice", 160⟩ 60 100 150).2.2.2
      (by decide)⟩

/-- C4: every federated account-creation attempt fails: once the provider
responds 200 with `sub` and `email` present, the handler raises
`AttributeError` at app.py line 356 (`models.User` declares no `google_id`
attribute) before any username is derived, and the blanket `except Exception`
surfaces it as 500 "Authentication failed".  The username derivation, the
random 4-digit suffix, any retry, and `UsernameGenerationExhausted` (which
appears nowhere in the code) are all unreachable. -/
theorem c4_account_creation_always_500 (gid email : String)
    (nm pic : Option String) (db : List UserRecord) (nextId rand now : Nat) :
    google_auth ⟨200, ⟨some gid, some email, nm, pic⟩⟩ db nextId rand now
      = Except.error ⟨500, "Authentication failed"⟩ := rfl

/-- C5: for any authenticated user and topic, the first tutor query invokes
the external generative call and caches the result; an identical query within
the 5-minute ttl returns the byte-identical cached value without a second
external call; an identical query once the ttl has elapsed misses the cache
and triggers a fresh external call. -/
theorem c5_tutor_cache (uname topic text : String) (exp t1 t2 t3 : Nat)
    (u : UserRecord) (db : List UserRecord) (gen : String → Except String String)
    (hfind : db.find? (fun r => r.username == uname) = some u)
    (hgen : gen (tutorPrompt topic) = Except.ok text)
    (h1 : t1 ≤ exp) (h2 : t2 ≤ exp) (h3 : t3 ≤ exp)
    (hin : t2 < t1 + CACHE_TTL) (hout : t1 + CACHE_TTL ≤ t3) :
    educational_tutor gen db (Token.signed ⟨uname, exp⟩ SECRET_KEY) topic t1 []
      = Except.ok (⟨text, u.username⟩,
          [(cacheKey topic u.username, ⟨text, u.username⟩, t1)], true)
    ∧ educational_tutor gen db (Token.signed ⟨uname, exp⟩ SECRET_KEY) topic t2
        [(cacheKey topic u.username, ⟨text, u.username⟩, t1)]
      = Except.ok (⟨text, u.username⟩,
          [(cacheKey topic u.username, ⟨text, u.username⟩, t1)], false)
    ∧ educational_tutor gen db (Token.signed ⟨uname, exp⟩ SECRET_KEY) topic t3
        [(cacheKey topic u.username, ⟨text, u.username⟩, t1)]
      = Except.ok (⟨text, u.username⟩,
          [(cacheKey topic u.username, ⟨text, u.username⟩, t3)], true) := by
  have hdec : ∀ t, t ≤ exp →
      jwt_decode (Token.signed ⟨uname, exp⟩ SECRET_KEY) SECRET_KEY t
        = Except.ok ⟨uname, exp⟩ := by
    intro t ht
    simp only [jwt_decode, bne_self_eq_false, Bool.false_eq_true, if_false]
    rw [if_neg (by omega)]
  have hcur : ∀ t, t ≤ exp →
      get_current_user db (Token.signed ⟨uname, exp⟩ SECRET_KEY) t
        = Except.ok u := by
    intro t ht
    simp only [get_current_user, hdec t ht, get_user, hfind]
  refine ⟨?_, ?_, ?_⟩
  · simp only [educational_tutor, hcur t1 h1, cache_get, List.find?_nil, hgen,
      cache_set, List.filter_nil, List.nil_append, CACHE_MAXSIZE, List.length_nil]
    norm_num
  · simp only [educational_tutor, hcur t2 h2, cache_get, List.find?_cons,
      beq_self_eq_true]
    rw [if_pos hin]
  · simp only [educational_tutor, hcur t3 h3, cache_get, List.find?_cons,
      beq_self_eq_true]
    rw [if_neg (by omega)]
    simp only [hgen, cache_set, List.filter_cons, bne_self_eq_false,
      Bool.false_and, List.filter_nil, CACHE_MAXSIZE, List.length_nil,
      List.nil_append]
    norm_num

/-- Witness for C5: user erin, topic calculus, queries at instants 0, 100 and 300. -/
theorem c5_witness :
    educational_tutor (fun _ => Except.ok "resp")
      [⟨1, "erin", "e@x.com", none, some (HashString.bcrypt "pw" 0), false, none, none⟩]
      (Token.signed ⟨"erin", 1000000⟩ SECRET_KEY) "calculus" 0 []
      = Except.ok (⟨"resp", "erin"⟩,
          [(cacheKey "calculus" "erin", ⟨"resp", "erin"⟩, 0)], true)
    ∧ educational_tutor (fun _ => Except.ok "resp")
      [⟨1, "erin", "e@x.com", none, some (HashString.bcrypt "pw" 0), false, none, none⟩]
      (Token.signed ⟨"erin", 1000000⟩ SECRET_KEY) "calculus" 100
        [(cacheKey "calculus" "erin", ⟨"resp", "erin"⟩, 0)]
      = Except.ok (⟨"resp", "erin"⟩,
          [(cacheKey "calculus" "erin", ⟨"resp", "erin"⟩, 0)], false)
    ∧ educational_tutor (fun _ => Except.ok "resp")
      [⟨1, "erin", "e@x.com", none, some (HashString.bcrypt "pw" 0), false, none, none⟩]
      (Token.signed ⟨"erin", 1000000⟩ SECRET_KEY) "calculus" 300
        [(cacheKey "calculus" "erin", ⟨"resp", "erin"⟩, 0)]
      = Except.ok (⟨"resp", "erin"⟩,
          [(cacheKey "calculus" "erin", ⟨"resp", "erin"⟩, 300)], true) :=
  c5_tutor_cache "erin" "calculus" "resp" 1000000 0 100 300
    ⟨1, "erin", "e@x.com", none, some (HashString.bcrypt "pw" 0), false, none, none⟩
    [⟨1, "erin", "e@x.com", none, some (HashString.bcrypt "pw" 0), false, none, none⟩]
    (fun _ => Except.ok "resp") rfl rfl
    (by omega) (by omega) (by omega) (by decide) (by decide)

/-- C6: six requests from one client address within 60 seconds of the first
against the 5/minute limit declared on `/tutor`: the limiter admits the first
five and rejects the sixth; `/upload` declares a 3/minute limit. -/
theorem c6_rate_limit_sequence (t1 t2 t3 t4 t5 t6 : Nat)
    (h12 : t1 ≤ t2) (h23 : t2 ≤ t3) (h34 : t3 ≤ t4) (h45 : t4 ≤ t5)
    (h56 : t5 ≤ t6) (hwin : t6 < t1 + 60) :
    run_limiter none [t1, t2, t3, t4, t5, t6] tutor_rate_limit.1 tutor_rate_limit.2
      = [true, true, true, true, true, false]
    ∧ upload_rate_limit = (3, 60) := by
  refine ⟨?_, rfl⟩
  have e2 : ¬ (t1 + 60 ≤ t2) := by omega
  have e3 : ¬ (t1 + 60 ≤ t3) := by omega
  have e4 : ¬ (t1 + 60 ≤ t4) := by omega
  have e5 : ¬ (t1 + 60 ≤ t5) := by omega
  have e6 : ¬ (t1 + 60 ≤ t6) := by omega
  simp only [tutor_rate_limit, run_limiter, limiter_hit, if_neg e2, if_neg e3,
    if_neg e4, if_neg e5, if_neg e6]
  norm_num

/-- Witness for C6 at request instants 0, 10, 20, 30, 40, 50. -/
theorem c6_witness :
    run_limiter none [0, 10, 20, 30, 40, 50] tutor_rate_limit.1 tutor_rate_limit.2
      = [true, true, true, true, true, false]
    ∧ upload_rate_limit = (3, 60) :=
  c6_rate_limit_sequence 0 10 20 30 40 50 (by omega) (by omega) (by omega)
    (by omega) (by omega) (by omega)

/-- C7: the account-linking the claim describes can never happen — for every
store holding a password account whose email matches the profile, the
federated login fails with 500 "Authentication failed" (the `AttributeError`
raised at app.py line 356 by the nonexistent `models.User.google_id`
attribute, caught by the blanket `except Exception`); no record is mutated
and no token is issued. -/
theorem c7_linking_unreachable (db : List UserRecord) (gid email : String)
    (nm pic : Option String) (nextId rand now : Nat) (u : UserRecord)
    (hu : u ∈ db) (hEmail : u.email = email)
    (hpw : u.hashed_password ≠ none) :
    google_auth ⟨200, ⟨some gid, some email, nm, pic⟩⟩ db nextId rand now
      = Except.error ⟨500, "Authentication failed"⟩
    ∧ ∀ r, google_auth ⟨200, ⟨some gid, some email, nm, pic⟩⟩ db nextId rand now
      ≠ Except.ok r :=
  ⟨rfl, fun _ h => Except.noConfusion h⟩

/-- Witness for C7: alice, an existing password account with a matching email,
and the unseen external id g123. -/
theorem c7_witness :
    google_auth ⟨200, ⟨some "g123", some "alice@x.com", none, some "pic.png"⟩⟩
      [⟨1, "alice", "alice@x.com", none, some (HashString.bcrypt "pw" 0), false, none, none⟩,
       ⟨2, "bob", "bob@x.com", none, some (HashString.bcrypt "pw2" 0), false, none, none⟩]
      3 5555 0
      = Except.error ⟨500, "Authentication failed"⟩
    ∧ ∀ r, google_auth ⟨200, ⟨some "g123", some "alice@x.com", none, some "pic.png"⟩⟩
      [⟨1, "alice", "alice@x.com", none, some (HashString.bcrypt "pw" 0), false, none, none⟩,
       ⟨2, "bob", "bob@x.com", none, some (HashString.bcrypt "pw2" 0), false, none, none⟩]
      3 5555 0
      ≠ Except.ok r :=
  c7_linking_unreachable
    [⟨1, "alice", "alice@x.com", none, some (HashString.bcrypt "pw" 0), false, none, none⟩,
     ⟨2, "bob", "bob@x.com", none, some (HashString.bcrypt "pw2" 0), false, none, none⟩]
    "g123" "alice@x.com" none (some "pic.png") 3 5555 0
    ⟨1, "alice", "alice@x.com", none, some (HashString.bcrypt "pw" 0), false, none, none⟩
    (by simp) rfl (by simp)

/-- C8 counterexample: on a malformed hash string, `verify_password` does not
return false — passlib raises `UnknownHashError`, surfaced here as an
`Except.error`, refuting the never-raises part of the claim. -/
theorem c8_counterexample :
    verify_password "password" (HashString.malformed "garbage")
      = Except.error "UnknownHashError"
    ∧ verify_password "password" (HashString.malformed "garbage")
      ≠ Except.ok false :=
  ⟨rfl, fun h => Except.noConfusion h⟩

/-- C8 (amended): `verify(p, hash(p))` is true for every plaintext and every
salt, and on a malformed hash string `verify` raises `UnknownHashError`
(it does not return false). -/
theorem c8_verify_roundtrip (p raw : String) (salt : Nat) :
    verify_password p (get_password_hash p salt) = Except.ok true
    ∧ verify_password p (HashString.malformed raw)
      = Except.error "UnknownHashError" := by
  constructor
  · simp [verify_password, get_password_hash]
  · rfl

/-- C9: signup with an unused username and email commits exactly one new
record carrying a non-null password hash and a null google_id; re-submitting
the same username then fails with 400 "Username already registered" and
leaves the store unchanged. -/
theorem c9_signup_create_and_duplicate (user : UserCreate) (salt nextId : Nat)
    (db : List UserRecord)
    (hU : db.any (fun u => u.username == user.username) = false)
    (hE : db.any (fun u => u.email == user.email) = false) :
    ∃ db_user : UserRecord,
      signup user salt nextId db = (Except.ok db_user, db ++ [db_user])
      ∧ db_user.hashed_password = some (get_password_hash user.password salt)
      ∧ db_user.google_id = none
      ∧ db_user.username = user.username
      ∧ signup user salt nextId (db ++ [db_user])
          = (Except.error ⟨400, "Username already registered"⟩, db ++ [db_user]) := by
  refine ⟨{ id := nextId, username := user.username, email := user.email,
            full_name := user.full_name,
            hashed_password := some (get_password_hash user.password salt),
            disabled := false, google_id := none, picture := none },
          ?_, rfl, rfl, rfl, ?_⟩
  · simp [signup, hU, hE]
  · simp [signup, List.any_append]

/-- Witness for C9: alice signing up against an empty store. -/
theorem c9_witness :
    ∃ db_user : UserRecord,
      signup ⟨"alice", "a@x.com", none, "pw"⟩ 0 1 []
        = (Except.ok db_user, [] ++ [db_user])
      ∧ db_user.hashed_password = some (get_password_hash "pw" 0)
      ∧ db_user.google_id = none
      ∧ db_user.username = "alice"
      ∧ signup ⟨"alice", "a@x.com", none, "pw"⟩ 0 1 ([] ++ [db_user])
          = (Except.error ⟨400, "Username already registered"⟩, [] ++ [db_user]) :=
  c9_signup_create_and_duplicate ⟨"alice", "a@x.com", none, "pw"⟩ 0 1 [] rfl rfl

/-- C10: for two distinct authenticated usernames and any (shared) topic, the
tutor cache keys differ, so a cached tutor response computed for one user is
never served to the other for the same topic. -/
theorem c10_cache_key_separates_users (u1 u2 topic : String) (h : u1 ≠ u2) :
    cacheKey topic u1 ≠ cacheKey topic u2 := by
  intro hEq
  simp only [cacheKey] at hEq
  exact h (string_append_cancel_left ("tutor_" ++ topic ++ "_") u1 u2 hEq)

/-- Witness for C10 at the concrete usernames alice and bob. -/
theorem c10_witness :
    ("alice" : String) ≠ "bob" ∧ cacheKey "math" "alice" ≠ cacheKey "math" "bob" :=
  ⟨by decide, c10_cache_key_separates_users "alice" "bob" "math" (by decide)⟩

end AITutor
